import Mathlib

/-!
Shallow embedding of the Optimus Portfolio Analyzer core
(src/analyzer.ts, class AdvancedAnalyzer, and src/index.ts, class
OptimusAnalyzer).  JavaScript numbers are modelled as rationals (all the
constants in the program are exact decimals and the claims do not depend
on binary floating-point rounding).  A JavaScript division whose result
can be non-finite (Infinity or NaN, when the denominator is 0) is
modelled as an Option, none standing for a non-finite number.  A thrown
JavaScript TypeError (reading a property of undefined) is modelled with
Except.  Network fetches (RPC token accounts, SOL balance, Jupiter and
Pyth endpoints) are parameters of the embedded functions: each function
takes the fetched data that the original method awaited.
-/

/-- A token account returned by getTokenAccountsByOwner; the analyzer only
ever inspects the length of the list of accounts, so the payload is just
the account public key. -/
structure TokenAccount where
  pubkey : String
deriving Repr, DecidableEq

/-- An allocation entry { token, percentage } as used by the rebalancing
functions of AdvancedAnalyzer. -/
structure AllocationEntry where
  token : String
  percentage : Rat
deriving Repr, DecidableEq

/-- A trade object as produced by computeRebalancingTrades:
{ action, token, amount, estimatedCost }. -/
structure Trade where
  action : String
  token : String
  amount : Rat
  estimatedCost : Rat
deriving Repr, DecidableEq

/-- A JavaScript runtime error; the only one this code can raise is the
TypeError from reading .token of undefined when the target list is empty. -/
inductive JsError where
  | typeError
deriving Repr, DecidableEq

/-- The record returned by generateRebalancingRecommendations. -/
structure RebalancePlan where
  currentAllocation : List AllocationEntry
  targetAllocation : List AllocationEntry
  recommendations : List Trade
  estimatedCost : Rat
  riskReduction : Rat
deriving Repr, DecidableEq

/-- The record returned by calculateRiskMetrics.  solExposure is an
Option because the JavaScript division producing it can in principle be
non-finite. -/
structure RiskMetrics where
  concentrationRisk : Rat
  volatilityEstimate : Rat
  diversificationScore : Rat
  solExposure : Option Rat
  liquidAssetsRatio : Rat
deriving Repr, DecidableEq

/-- A Jupiter opportunity entry { route, apr, liquidity, risk }. -/
structure Opportunity where
  route : String
  apr : Rat
  liquidity : Rat
  risk : String
deriving Repr, DecidableEq

/-- A Pyth trend entry { token, trend, confidence }. -/
structure Trend where
  token : String
  trend : String
  confidence : Rat
deriving Repr, DecidableEq

/-- The value resolved by fetchJupiterMarkets. -/
structure JupiterMarkets where
  opportunities : List Opportunity
deriving Repr, DecidableEq

/-- The value resolved by fetchPythPrices. -/
structure PythPrices where
  trends : List Trend
  volatility : Rat
deriving Repr, DecidableEq

/-- A suggested allocation { token, suggestedIncrease } emitted by
generateSuggestedAllocations. -/
structure SuggestedAllocation where
  token : String
  suggestedIncrease : Rat
deriving Repr, DecidableEq

/-- The record returned by getMarketInsights. -/
structure MarketInsights where
  jupiterOpportunities : List Opportunity
  pythPriceTrends : List Trend
  marketVolatility : Rat
  suggestedAllocations : List SuggestedAllocation
deriving Repr, DecidableEq

/-- JavaScript division on finite numbers: none models the non-finite
result (Infinity or NaN) obtained when the denominator is 0. -/
def jsDiv (a b : Rat) : Option Rat :=
  if b = 0 then none else some (a / b)

/-- AdvancedAnalyzer.calculateConcentrationRisk: a step function of the
number of token accounts. -/
def calculateConcentrationRisk (tokenAccounts : List TokenAccount) : Rat :=
  if tokenAccounts.length = 0 then 1
  else if 5 ≤ tokenAccounts.length then 1/5
  else if 3 ≤ tokenAccounts.length then 2/5
  else if 2 ≤ tokenAccounts.length then 3/5
  else 1

/-- AdvancedAnalyzer.estimateVolatility: the placeholder constant 0.5. -/
def estimateVolatility (_tokenAccounts : List TokenAccount) : Rat := 1/2

/-- AdvancedAnalyzer.calculateDiversificationScore: a step function of
the number of token accounts. -/
def calculateDiversificationScore (tokenAccounts : List TokenAccount) : Rat :=
  if tokenAccounts.length = 0 then 0
  else if 10 ≤ tokenAccounts.length then 1
  else if 5 ≤ tokenAccounts.length then 4/5
  else if 3 ≤ tokenAccounts.length then 3/5
  else if 2 ≤ tokenAccounts.length then 2/5
  else 1/5

/-- AdvancedAnalyzer.getTotalPortfolioValue: the placeholder constant
1000, whatever the wallet. -/
def getTotalPortfolioValue (_walletAddress : String) : Rat := 1000

/-- AdvancedAnalyzer.calculateLiquidAssetsRatio: the placeholder
constant 1.0. -/
def calculateLiquidAssetsRatio (_tokenAccounts : List TokenAccount) : Rat := 1

/-- The solExposure expression of calculateRiskMetrics:
(solBalance / 1e9) / totalValue, with JavaScript division semantics
(non-finite, i.e. none, when totalValue is 0; there is no guard in the
code). -/
def solExposureExpr (solBalance totalValue : Rat) : Option Rat :=
  jsDiv (solBalance / 10 ^ 9) totalValue

/-- AdvancedAnalyzer.calculateRiskMetrics, parameterized by the fetched
token accounts and SOL balance (in lamports). -/
def calculateRiskMetrics (walletAddress : String)
    (tokenAccounts : List TokenAccount) (solBalance : Rat) : RiskMetrics :=
  { concentrationRisk := calculateConcentrationRisk tokenAccounts
    volatilityEstimate := estimateVolatility tokenAccounts
    diversificationScore := calculateDiversificationScore tokenAccounts
    solExposure := solExposureExpr solBalance (getTotalPortfolioValue walletAddress)
    liquidAssetsRatio := calculateLiquidAssetsRatio tokenAccounts }

/-- AdvancedAnalyzer.computeRebalancingTrades: ignores the current
allocation and returns the single hardcoded trade on target[0]; on an
empty target, target[0] is undefined and reading .token throws a
TypeError. -/
def computeRebalancingTrades (_current target : List AllocationEntry) :
    Except JsError (List Trade) :=
  match target with
  | [] => Except.error JsError.typeError
  | t :: _ => Except.ok [{ action := "buy", token := t.token,
                           amount := 1/10, estimatedCost := 1/2000 }]

/-- AdvancedAnalyzer.estimateTransactionCosts: reduce-sum of the trades'
estimatedCost fields. -/
def estimateTransactionCosts (trades : List Trade) : Rat :=
  trades.foldl (fun sum trade => sum + trade.estimatedCost) 0

/-- AdvancedAnalyzer.estimateRiskReduction: the placeholder constant
0.15. -/
def estimateRiskReduction
    (_current _target : List AllocationEntry) : Rat := 3/20

/-- AdvancedAnalyzer.generateRebalancingRecommendations, parameterized
by the current allocation (which the original fetches from the chain via
getCurrentAllocation).  A TypeError thrown by computeRebalancingTrades
propagates. -/
def generateRebalancingRecommendations
    (currentAllocation targetAllocation : List AllocationEntry) :
    Except JsError RebalancePlan :=
  match computeRebalancingTrades currentAllocation targetAllocation with
  | Except.error e => Except.error e
  | Except.ok recommendations =>
      Except.ok
        { currentAllocation := currentAllocation
          targetAllocation := targetAllocation
          recommendations := recommendations
          estimatedCost := estimateTransactionCosts recommendations
          riskReduction :=
            estimateRiskReduction currentAllocation targetAllocation }

/-- AdvancedAnalyzer.generateSuggestedAllocations: keeps the trends that
are bullish with confidence > 0.6 and maps each to a fixed +0.05
suggestion; the Jupiter market data parameter is ignored. -/
def generateSuggestedAllocations (_marketData : JupiterMarkets)
    (priceData : PythPrices) : List SuggestedAllocation :=
  (priceData.trends.filter fun t =>
      t.trend == "bullish" && decide ((3 : Rat)/5 < t.confidence)).map
    fun t => { token := t.token, suggestedIncrease := 1/20 }

/-- AdvancedAnalyzer.getMarketInsights, parameterized by the outcomes of
the two awaited fetches.  The try/catch wraps both fetches: if either
rejects, the catch branch returns the fallback record with empty lists
and volatility 0.5.  On success, the JavaScript expression
pythPrices.volatility || 0.5 evaluates to 0.5 when volatility is falsy
(0). -/
def getMarketInsights (jupiterResult : Except JsError JupiterMarkets)
    (pythResult : Except JsError PythPrices) : MarketInsights :=
  match jupiterResult, pythResult with
  | Except.ok jupiterMarkets, Except.ok pythPrices =>
      { jupiterOpportunities := jupiterMarkets.opportunities
        pythPriceTrends := pythPrices.trends
        marketVolatility :=
          if pythPrices.volatility = 0 then 1/2 else pythPrices.volatility
        suggestedAllocations :=
          generateSuggestedAllocations jupiterMarkets pythPrices }
  | _, _ =>
      { jupiterOpportunities := []
        pythPriceTrends := []
        marketVolatility := 1/2
        suggestedAllocations := [] }

/-- A strategy allocation entry { asset, percentage } of
OptimusAnalyzer.getRecommendations (percentages are whole numbers
there). -/
structure StrategyAllocationEntry where
  asset : String
  percentage : Rat
deriving Repr, DecidableEq

/-- A strategy record { description, allocations } of
OptimusAnalyzer.getRecommendations. -/
structure StrategyRecommendation where
  description : String
  allocations : List StrategyAllocationEntry
deriving Repr, DecidableEq

/-- OptimusAnalyzer.getRecommendations: a JavaScript object-property
lookup strategies[strategy]; an unknown key yields undefined (none). -/
def getRecommendations (strategy : String) : Option StrategyRecommendation :=
  if strategy = "conservative" then
    some { description := "Focus on stablecoins and blue-chip tokens"
           allocations := [{ asset := "USDC", percentage := 50 },
                           { asset := "SOL", percentage := 30 },
                           { asset := "other", percentage := 20 }] }
  else if strategy = "moderate" then
    some { description := "Balanced mix of growth and stability"
           allocations := [{ asset := "SOL", percentage := 35 },
                           { asset := "USDC", percentage := 25 },
                           { asset := "JLP", percentage := 20 },
                           { asset := "other", percentage := 20 }] }
  else if strategy = "aggressive" then
    some { description := "Focus on growth tokens and yield farming"
           allocations := [{ asset := "SOL", percentage := 30 },
                           { asset := "growth_tokens", percentage := 50 },
                           { asset := "yield_farming", percentage := 20 }] }
  else none

/-- OptimusAnalyzer.getStrategyAllocation: a switch whose default case
shares the moderate branch, so any unknown strategy name resolves to the
moderate allocation. -/
def getStrategyAllocation (strategy : String) : List AllocationEntry :=
  if strategy = "conservative" then
    [{ token := "USDC", percentage := 1/2 },
     { token := "SOL", percentage := 3/10 },
     { token := "other", percentage := 1/5 }]
  else if strategy = "aggressive" then
    [{ token := "SOL", percentage := 3/10 },
     { token := "growth_tokens", percentage := 1/2 },
     { token := "yield_farming", percentage := 1/5 }]
  else
    [{ token := "SOL", percentage := 7/20 },
     { token := "USDC", percentage := 1/4 },
     { token := "JLP", percentage := 1/5 },
     { token := "other", percentage := 1/5 }]

/-- Spec rendering of the concentration-risk step function, written from
the claimed breakpoints: N=0 and N=1 give 1.0, then the most specific of
the rules N at least 2 gives 0.6, N at least 3 gives 0.4, N at least 5
gives 0.2. -/
def specConcentrationRisk (n : Nat) : Rat :=
  if n = 0 then 1
  else if n = 1 then 1
  else if 5 ≤ n then 1/5
  else if 3 ≤ n then 2/5
  else 3/5

/-- Spec rendering of the diversification-score step function, written
from the claimed breakpoints: N=0 gives 0, N=1 gives 0.2, then the most
specific of the rules N at least 2 gives 0.4, N at least 3 gives 0.6,
N at least 5 gives 0.8, N at least 10 gives 1.0. -/
def specDiversificationScore (n : Nat) : Rat :=
  if n = 0 then 0
  else if n = 1 then 1/5
  else if 10 ≤ n then 1
  else if 5 ≤ n then 4/5
  else if 3 ≤ n then 3/5
  else 2/5

/-- Spec rendering of the suggested-allocation derivation: one entry,
with a fixed +0.05 increase, per trend that is bullish with confidence
strictly above 0.6, in the order of the input trend list. -/
def specSuggestedAllocations (trends : List Trend) : List SuggestedAllocation :=
  trends.filterMap fun t =>
    if t.trend = "bullish" ∧ (3 : Rat)/5 < t.confidence then
      some { token := t.token, suggestedIncrease := 1/20 }
    else none

/-- Sum of the percentages of an allocation, used to state the
target-sum claims. -/
def allocationSum (allocation : List AllocationEntry) : Rat :=
  allocation.foldl (fun s e => s + e.percentage) 0

/-- A concrete plan: the exact value generateRebalancingRecommendations
produces for an empty current allocation and the single-entry target
[SOL 35%]. -/
def samplePlan : RebalancePlan :=
  { currentAllocation := []
    targetAllocation := [{ token := "SOL", percentage := 7/20 }]
    recommendations := [{ action := "buy", token := "SOL",
                          amount := 1/10, estimatedCost := 1/2000 }]
    estimatedCost := estimateTransactionCosts
      [{ action := "buy", token := "SOL", amount := 1/10, estimatedCost := 1/2000 }]
    riskReduction := 3/20 }

/-- Claim C1: calculateConcentrationRisk follows the claimed step
function of the token-account count N (1.0 at N=0 and N=1, 0.6 at N=2,
0.4 at N in 3..4, 0.2 at N at least 5) and calculateDiversificationScore
the claimed complementary one (0 at N=0, 0.2 at N=1, 0.4 at N=2, 0.6 at
N in 3..4, 0.8 at N in 5..9, 1.0 at N at least 10); concentration risk
is non-increasing in N, diversification score is non-decreasing in N,
and both always lie in [0, 1]. -/
theorem risk_step_functions_monotone_bounded :
    (∀ accounts : List TokenAccount,
       calculateConcentrationRisk accounts =
         specConcentrationRisk accounts.length ∧
       calculateDiversificationScore accounts =
         specDiversificationScore accounts.length ∧
       0 ≤ calculateConcentrationRisk accounts ∧
       calculateConcentrationRisk accounts ≤ 1 ∧
       0 ≤ calculateDiversificationScore accounts ∧
       calculateDiversificationScore accounts ≤ 1) ∧
    (∀ l₁ l₂ : List TokenAccount, l₁.length ≤ l₂.length →
       calculateConcentrationRisk l₂ ≤ calculateConcentrationRisk l₁ ∧
       calculateDiversificationScore l₁ ≤ calculateDiversificationScore l₂) := by
  constructor
  · intro accounts
    refine ⟨?_, ?_, ?_, ?_, ?_, ?_⟩ <;>
      simp only [calculateConcentrationRisk, calculateDiversificationScore,
        specConcentrationRisk, specDiversificationScore] <;>
      split_ifs <;> first | (exfalso; omega) | norm_num
  · intro l₁ l₂ h
    constructor <;>
      simp only [calculateConcentrationRisk, calculateDiversificationScore] <;>
      split_ifs <;> first | (exfalso; omega) | norm_num

/-- Witness for C1 at concrete inputs: a 1-account list against a
3-account list. -/
theorem risk_step_functions_monotone_bounded_witness :
    calculateConcentrationRisk [⟨"a"⟩, ⟨"b"⟩, ⟨"c"⟩] ≤
      calculateConcentrationRisk [⟨"a"⟩] ∧
    calculateDiversificationScore [⟨"a"⟩] ≤
      calculateDiversificationScore [⟨"a"⟩, ⟨"b"⟩, ⟨"c"⟩] :=
  risk_step_functions_monotone_bounded.2 [⟨"a"⟩] [⟨"a"⟩, ⟨"b"⟩, ⟨"c"⟩]
    (by decide)

/-- Helper: the left fold summing trade costs equals the accumulator
plus the sum of the mapped costs. -/
theorem trade_cost_foldl (l : List Trade) (a : Rat) :
    l.foldl (fun s t => s + t.estimatedCost) a =
      a + (l.map Trade.estimatedCost).sum := by
  induction l generalizing a with
  | nil => simp
  | cons t ts ih => simp [ih]; ring

/-- Claim C2 counterexample: with current = target = [TOKEN_0 100%] the
planner does not produce an empty trade list with zero cost; it returns
the single hardcoded buy trade and a total cost of 0.0005. -/
theorem rebalance_round_trip_cx :
    generateRebalancingRecommendations
        [{ token := "TOKEN_0", percentage := 1 }]
        [{ token := "TOKEN_0", percentage := 1 }] =
      Except.ok
        { currentAllocation := [{ token := "TOKEN_0", percentage := 1 }]
          targetAllocation := [{ token := "TOKEN_0", percentage := 1 }]
          recommendations := [{ action := "buy", token := "TOKEN_0",
                                amount := 1/10, estimatedCost := 1/2000 }]
          estimatedCost := 1/2000
          riskReduction := 3/20 } ∧
    ([{ action := "buy", token := "TOKEN_0", amount := 1/10,
        estimatedCost := 1/2000 }] : List Trade) ≠ [] ∧
    (1/2000 : Rat) ≠ 0 := by
  refine ⟨?_, by simp, by norm_num⟩
  simp [generateRebalancingRecommendations, computeRebalancingTrades,
    estimateTransactionCosts, estimateRiskReduction]

/-- Claim C2 (amended): running the planner with current = target does
not yield an empty trade list: for any non-empty allocation it returns
the single hardcoded buy of the first entry's token with total cost
0.0005, and for the empty allocation it throws a TypeError. -/
theorem rebalance_round_trip_amended (cur : List AllocationEntry)
    (h : cur ≠ []) :
    generateRebalancingRecommendations cur cur =
      Except.ok
        { currentAllocation := cur
          targetAllocation := cur
          recommendations := [{ action := "buy", token := (cur.head h).token,
                                amount := 1/10, estimatedCost := 1/2000 }]
          estimatedCost := 1/2000
          riskReduction := 3/20 } ∧
    generateRebalancingRecommendations [] [] =
      Except.error JsError.typeError := by
  refine ⟨?_, rfl⟩
  cases cur with
  | nil => exact absurd rfl h
  | cons a t =>
      simp [generateRebalancingRecommendations, computeRebalancingTrades,
        estimateTransactionCosts, estimateRiskReduction]

/-- Witness for the amended C2 at current = target = [TOKEN_0 100%]. -/
theorem rebalance_round_trip_amended_witness :
    generateRebalancingRecommendations
        [{ token := "TOKEN_0", percentage := 1 }]
        [{ token := "TOKEN_0", percentage := 1 }] =
      Except.ok
        { currentAllocation := [{ token := "TOKEN_0", percentage := 1 }]
          targetAllocation := [{ token := "TOKEN_0", percentage := 1 }]
          recommendations := [{ action := "buy", token := "TOKEN_0",
                                amount := 1/10, estimatedCost := 1/2000 }]
          estimatedCost := 1/2000
          riskReduction := 3/20 } ∧
    generateRebalancingRecommendations [] [] =
      Except.error JsError.typeError :=
  rebalance_round_trip_amended [{ token := "TOKEN_0", percentage := 1 }]
    (by simp)

/-- Claim C3 counterexample: a target whose percentages sum to 0.9 does
not make the planner raise any error; the planner happily produces a
plan (there is no InvalidTarget validation anywhere in the code). -/
theorem target_sum_not_validated_cx :
    allocationSum [{ token := "ALL", percentage := 9/10 }] ≠ 1 ∧
    generateRebalancingRecommendations
        [{ token := "TOKEN_0", percentage := 1 }]
        [{ token := "ALL", percentage := 9/10 }] =
      Except.ok
        { currentAllocation := [{ token := "TOKEN_0", percentage := 1 }]
          targetAllocation := [{ token := "ALL", percentage := 9/10 }]
          recommendations := [{ action := "buy", token := "ALL",
                                amount := 1/10, estimatedCost := 1/2000 }]
          estimatedCost := 1/2000
          riskReduction := 3/20 } := by
  constructor
  · simp [allocationSum]; norm_num
  · simp [generateRebalancingRecommendations, computeRebalancingTrades,
      estimateTransactionCosts, estimateRiskReduction]

/-- Claim C3 (amended): the planner performs no validation of the
target-percentage sum: for every non-empty target allocation whose
percentages do not sum to 1.0 it still succeeds and returns the single
hardcoded trade plan, and never raises an InvalidTarget error. -/
theorem target_sum_not_validated (cur tgt : List AllocationEntry)
    (h : tgt ≠ []) (hsum : allocationSum tgt ≠ 1) :
    generateRebalancingRecommendations cur tgt =
      Except.ok
        { currentAllocation := cur
          targetAllocation := tgt
          recommendations := [{ action := "buy", token := (tgt.head h).token,
                                amount := 1/10, estimatedCost := 1/2000 }]
          estimatedCost := 1/2000
          riskReduction := 3/20 } := by
  cases tgt with
  | nil => exact absurd rfl h
  | cons a t =>
      simp [generateRebalancingRecommendations, computeRebalancingTrades,
        estimateTransactionCosts, estimateRiskReduction]

/-- Witness for the amended C3 at a target summing to 1.2. -/
theorem target_sum_not_validated_witness :
    generateRebalancingRecommendations []
        [{ token := "ALL", percentage := 6/5 }] =
      Except.ok
        { currentAllocation := []
          targetAllocation := [{ token := "ALL", percentage := 6/5 }]
          recommendations := [{ action := "buy", token := "ALL",
                                amount := 1/10, estimatedCost := 1/2000 }]
          estimatedCost := 1/2000
          riskReduction := 3/20 } :=
  target_sum_not_validated [] [{ token := "ALL", percentage := 6/5 }]
    (by simp) (by simp [allocationSum]; norm_num)

/-- Claim C4: the claim is right and the code is wrong.  On an empty
target allocation the code reads .token of target[0], which is
undefined, so computeRebalancingTrades throws a TypeError and the
planner fails instead of returning a plan with zero trades and zero
cost. -/
theorem empty_target_throws :
    computeRebalancingTrades [{ token := "TOKEN_0", percentage := 1 }] [] =
      Except.error JsError.typeError ∧
    generateRebalancingRecommendations
        [{ token := "TOKEN_0", percentage := 1 }] [] =
      Except.error JsError.typeError :=
  ⟨rfl, rfl⟩

/-- Claim C10: for every current allocation and non-empty target,
computeRebalancingTrades returns exactly one hardcoded trade (a buy of
the first target token, amount 0.1, cost 0.0005), independently of the
current allocation, and consequently every successful plan has total
estimated cost 0.0005 and risk reduction 0.15. -/
theorem hardcoded_single_trade (cur tgt : List AllocationEntry)
    (h : tgt ≠ []) :
    computeRebalancingTrades cur tgt =
      Except.ok [{ action := "buy", token := (tgt.head h).token,
                   amount := 1/10, estimatedCost := 1/2000 }] ∧
    (∀ cur' : List AllocationEntry,
       computeRebalancingTrades cur' tgt = computeRebalancingTrades cur tgt) ∧
    generateRebalancingRecommendations cur tgt =
      Except.ok
        { currentAllocation := cur
          targetAllocation := tgt
          recommendations := [{ action := "buy", token := (tgt.head h).token,
                                amount := 1/10, estimatedCost := 1/2000 }]
          estimatedCost := 1/2000
          riskReduction := 3/20 } := by
  cases tgt with
  | nil => exact absurd rfl h
  | cons a t =>
      refine ⟨rfl, fun cur' => rfl, ?_⟩
      simp [generateRebalancingRecommendations, computeRebalancingTrades,
        estimateTransactionCosts, estimateRiskReduction]

/-- Witness for C10 at a concrete pair of allocations. -/
theorem hardcoded_single_trade_witness :
    computeRebalancingTrades
        [{ token := "USDC", percentage := 1/2 }]
        [{ token := "SOL", percentage := 7/20 }] =
      Except.ok [{ action := "buy", token := "SOL",
                   amount := 1/10, estimatedCost := 1/2000 }] ∧
    (∀ cur' : List AllocationEntry,
       computeRebalancingTrades cur' [{ token := "SOL", percentage := 7/20 }] =
         computeRebalancingTrades [{ token := "USDC", percentage := 1/2 }]
           [{ token := "SOL", percentage := 7/20 }]) ∧
    generateRebalancingRecommendations
        [{ token := "USDC", percentage := 1/2 }]
        [{ token := "SOL", percentage := 7/20 }] =
      Except.ok
        { currentAllocation := [{ token := "USDC", percentage := 1/2 }]
          targetAllocation := [{ token := "SOL", percentage := 7/20 }]
          recommendations := [{ action := "buy", token := "SOL",
                                amount := 1/10, estimatedCost := 1/2000 }]
          estimatedCost := 1/2000
          riskReduction := 3/20 } :=
  hardcoded_single_trade [{ token := "USDC", percentage := 1/2 }]
    [{ token := "SOL", percentage := 7/20 }] (by simp)

/-- Claim C7: whenever generateRebalancingRecommendations succeeds, the
estimatedCost field of the returned plan is exactly the sum of the
estimatedCost fields of the trades it recommends. -/
theorem plan_cost_is_trade_cost_sum (cur tgt : List AllocationEntry)
    (plan : RebalancePlan)
    (h : generateRebalancingRecommendations cur tgt = Except.ok plan) :
    plan.estimatedCost = (plan.recommendations.map Trade.estimatedCost).sum := by
  unfold generateRebalancingRecommendations at h
  cases hc : computeRebalancingTrades cur tgt with
  | error e => rw [hc] at h; exact Except.noConfusion h
  | ok recs =>
      rw [hc] at h
      cases h
      simpa [estimateTransactionCosts] using trade_cost_foldl recs 0

/-- Witness for C7 on the concrete plan produced for an empty current
allocation and the single-entry target [SOL 35%]. -/
theorem plan_cost_is_trade_cost_sum_witness :
    samplePlan.estimatedCost =
      (samplePlan.recommendations.map Trade.estimatedCost).sum :=
  plan_cost_is_trade_cost_sum []
    [{ token := "SOL", percentage := 7/20 }] samplePlan rfl

/-- Claim C5 counterexample: when the Jupiter fetch errors while the
Pyth fetch succeeds with a non-empty trend list, getMarketInsights does
not return the live source's signals: the shared try/catch drops them
and returns the all-empty fallback (and no availability flag exists in
the result at all). -/
theorem insights_drop_live_source_cx :
    getMarketInsights (Except.error JsError.typeError)
        (Except.ok { trends := [{ token := "SOL", trend := "bullish",
                                  confidence := 7/10 }],
                     volatility := 9/20 }) =
      { jupiterOpportunities := []
        pythPriceTrends := []
        marketVolatility := 1/2
        suggestedAllocations := [] } ∧
    (getMarketInsights (Except.error JsError.typeError)
        (Except.ok { trends := [{ token := "SOL", trend := "bullish",
                                  confidence := 7/10 }],
                     volatility := 9/20 })).pythPriceTrends ≠
      [{ token := "SOL", trend := "bullish", confidence := 7/10 }] := by
  refine ⟨rfl, ?_⟩
  simp [getMarketInsights]

/-- Claim C5 (amended): if either of the two market-data fetches errors,
getMarketInsights does not raise an error but it also does not keep the
live source's signals: the single try/catch around both fetches returns
the fallback record with empty opportunity and trend lists, volatility
0.5 and no suggestions, and the result carries no per-source
availability flag. -/
theorem insights_fallback_on_any_source_error
    (jupiterResult : Except JsError JupiterMarkets)
    (pythResult : Except JsError PythPrices)
    (h : (∃ e, jupiterResult = Except.error e) ∨
         (∃ e, pythResult = Except.error e)) :
    getMarketInsights jupiterResult pythResult =
      { jupiterOpportunities := []
        pythPriceTrends := []
        marketVolatility := 1/2
        suggestedAllocations := [] } := by
  rcases h with ⟨e, rfl⟩ | ⟨e, rfl⟩
  · cases pythResult <;> rfl
  · cases jupiterResult <;> rfl

/-- Witness for the amended C5: Jupiter errors, Pyth succeeds. -/
theorem insights_fallback_on_any_source_error_witness :
    getMarketInsights (Except.error JsError.typeError)
        (Except.ok { trends := [], volatility := 9/20 }) =
      { jupiterOpportunities := []
        pythPriceTrends := []
        marketVolatility := 1/2
        suggestedAllocations := [] } :=
  insights_fallback_on_any_source_error (Except.error JsError.typeError)
    (Except.ok { trends := [], volatility := 9/20 })
    (Or.inl ⟨JsError.typeError, rfl⟩)

/-- Claim C6 counterexample: the solExposure division carries no
zero-denominator guard: evaluated at a native balance of 5 SOL (5e9
lamports) and a total value of 0, the code's expression yields a
non-finite JavaScript number (modelled none), not 0. -/
theorem sol_exposure_unguarded_cx :
    solExposureExpr (5 * 10 ^ 9) 0 = none ∧
    (none : Option Rat) ≠ some 0 := by
  refine ⟨?_, by simp⟩
  simp [solExposureExpr, jsDiv]

/-- Claim C6 (amended): solExposure equals the native balance (in value
units, solBalance / 1e9) divided by the total portfolio value, but that
total is the placeholder constant 1000 for every wallet, so the metric
always equals solBalance / 1e9 / 1000 and a zero total never arises;
the division itself is unguarded: at a zero total it would produce a
non-finite value, never 0. -/
theorem sol_exposure_unguarded (walletAddress : String)
    (tokenAccounts : List TokenAccount) (solBalance : Rat) :
    (calculateRiskMetrics walletAddress tokenAccounts solBalance).solExposure =
      solExposureExpr solBalance (getTotalPortfolioValue walletAddress) ∧
    getTotalPortfolioValue walletAddress = 1000 ∧
    (calculateRiskMetrics walletAddress tokenAccounts solBalance).solExposure =
      some (solBalance / 10 ^ 9 / 1000) ∧
    (∀ native : Rat, solExposureExpr native 0 = none) := by
  refine ⟨rfl, rfl, ?_, fun native => by simp [solExposureExpr, jsDiv]⟩
  simp [calculateRiskMetrics, solExposureExpr, jsDiv, getTotalPortfolioValue]

/-- Helper: the filter-then-map of generateSuggestedAllocations agrees
with the spec's one-entry-per-qualifying-trend rendering, by induction
over the trend list. -/
theorem gen_suggested_eq_spec (jm : JupiterMarkets) (l : List Trend) (v : Rat) :
    generateSuggestedAllocations jm { trends := l, volatility := v } =
      specSuggestedAllocations l := by
  induction l with
  | nil => rfl
  | cons t ts ih =>
      unfold generateSuggestedAllocations specSuggestedAllocations at *
      simp only [List.filter_cons, List.filterMap_cons] at *
      by_cases h1 : t.trend = "bullish"
      · by_cases h2 : (3 : Rat)/5 < t.confidence
        · simp [h1, h2]; simpa using ih
        · simp [h1, h2]; simpa using ih
      · simp [h1]; simpa using ih

/-- Claim C8: the suggestedAllocations of getMarketInsights contain
exactly one entry with a fixed +0.05 increase per trend whose direction
is bullish and whose confidence is strictly greater than 0.6, in input
trend order, and the derivation is deterministic: identical source
responses give identical results. -/
theorem suggested_allocations_bullish_step
    (jm : JupiterMarkets) (pp : PythPrices)
    (jr jr' : Except JsError JupiterMarkets)
    (pr pr' : Except JsError PythPrices)
    (h1 : jr = jr') (h2 : pr = pr') :
    (getMarketInsights (Except.ok jm) (Except.ok pp)).suggestedAllocations =
      specSuggestedAllocations pp.trends ∧
    getMarketInsights jr pr = getMarketInsights jr' pr' := by
  subst h1; subst h2
  refine ⟨?_, rfl⟩
  obtain ⟨l, v⟩ := pp
  exact gen_suggested_eq_spec jm l v

/-- Witness for C8 on the stubbed Pyth response of the code (a bullish
SOL trend at confidence 0.7 and a stable USDC trend at 0.9). -/
theorem suggested_allocations_bullish_step_witness :
    (getMarketInsights (Except.ok { opportunities := [] })
        (Except.ok { trends := [{ token := "SOL", trend := "bullish",
                                  confidence := 7/10 },
                                { token := "USDC", trend := "stable",
                                  confidence := 9/10 }],
                     volatility := 9/20 })).suggestedAllocations =
      specSuggestedAllocations
        [{ token := "SOL", trend := "bullish", confidence := 7/10 },
         { token := "USDC", trend := "stable", confidence := 9/10 }] ∧
    getMarketInsights (Except.error JsError.typeError)
        (Except.error JsError.typeError) =
      getMarketInsights (Except.error JsError.typeError)
        (Except.error JsError.typeError) :=
  suggested_allocations_bullish_step { opportunities := [] }
    { trends := [{ token := "SOL", trend := "bullish", confidence := 7/10 },
                 { token := "USDC", trend := "stable", confidence := 9/10 }],
      volatility := 9/20 }
    (Except.error JsError.typeError) (Except.error JsError.typeError)
    (Except.error JsError.typeError) (Except.error JsError.typeError)
    rfl rfl

/-- Claim C9 counterexample: getRecommendations does not fall back to
the moderate strategy for an unknown strategy name; the object lookup
yields undefined (none), unlike the moderate lookup. -/
theorem unknown_strategy_no_fallback_cx :
    getRecommendations "unknown_strategy" = none ∧
    getRecommendations "unknown_strategy" ≠ getRecommendations "moderate" := by
  constructor
  · simp [getRecommendations]
  · simp [getRecommendations]

/-- Claim C9 (amended): the moderate strategy resolves to the fixed
allocation SOL 35%, USDC 25%, JLP 20%, other 20% in both the
rebalancing-path lookup (getStrategyAllocation) and the general
recommendations operation (getRecommendations); an unknown strategy
name falls back to the moderate allocation in getStrategyAllocation
(its switch shares the default with the moderate case), but
getRecommendations returns no value at all (undefined) for it. -/
theorem strategy_lookup_moderate (s : String)
    (hc : s ≠ "conservative") (hm : s ≠ "moderate") (ha : s ≠ "aggressive") :
    getStrategyAllocation "moderate" =
      [{ token := "SOL", percentage := 7/20 },
       { token := "USDC", percentage := 1/4 },
       { token := "JLP", percentage := 1/5 },
       { token := "other", percentage := 1/5 }] ∧
    getStrategyAllocation s = getStrategyAllocation "moderate" ∧
    getRecommendations "moderate" =
      some { description := "Balanced mix of growth and stability"
             allocations := [{ asset := "SOL", percentage := 35 },
                             { asset := "USDC", percentage := 25 },
                             { asset := "JLP", percentage := 20 },
                             { asset := "other", percentage := 20 }] } ∧
    getRecommendations s = none := by
  refine ⟨by simp [getStrategyAllocation], ?_, by simp [getRecommendations], ?_⟩
  · simp [getStrategyAllocation, hc, ha]
  · simp [getRecommendations, hc, hm, ha]

/-- Witness for the amended C9 at the unknown strategy name
"defi_degen". -/
theorem strategy_lookup_moderate_witness :
    getStrategyAllocation "moderate" =
      [{ token := "SOL", percentage := 7/20 },
       { token := "USDC", percentage := 1/4 },
       { token := "JLP", percentage := 1/5 },
       { token := "other", percentage := 1/5 }] ∧
    getStrategyAllocation "defi_degen" = getStrategyAllocation "moderate" ∧
    getRecommendations "moderate" =
      some { description := "Balanced mix of growth and stability"
             allocations := [{ asset := "SOL", percentage := 35 },
                             { asset := "USDC", percentage := 25 },
                             { asset := "JLP", percentage := 20 },
                             { asset := "other", percentage := 20 }] } ∧
    getRecommendations "defi_degen" = none :=
  strategy_lookup_moderate "defi_degen" (by simp) (by simp) (by simp)
